import Mathlib

/-!
Shallow embedding of `src/assert.h`, a C89-to-C23 compatible header
providing the macros STATIC_ASSERT, STATIC_ASSERT_UNIQ,
STATIC_ASSERT_EXPR and ASSERT.  Everything the header does is resolved
by the C preprocessor from the set of macros the build environment (or
the including caller) defines, so the embedding models:

* `BuildConfig`: which of the macros read by the header's conditionals
  are defined (`__cpp_static_assert`, `static_assert`,
  `__STDC_VERSION__`, `__COUNTER__`, `__GNUC__`, `_MSC_VER`,
  `unreachable`, `ASSERT_DEBUG`, `DEBUG`), together with caller
  pre-definitions of `ASSERT_TRAP`, `ASSERT_UNREACHABLE` and
  `ASSERT_FAILED` (the header guards those three with `#ifndef`);
* the resolution performed by the header's conditionals: the tier
  selected for the static assertions (lines 31-52), `ASSERT_TRAP`
  (lines 54-62), `ASSERT_UNREACHABLE` (lines 64-74), `ASSERT_FAILED`
  (lines 76-82) and `ASSERT__UNIQUE` (lines 39-43);
* a fragment of C sufficient for the constructs the macros expand to:
  expressions evaluated to a value plus the trace of failure actions
  they perform, declarations, and the compile-time legality rules the
  header exploits (a named bit-field of width zero or of negative
  width is ill-formed, C11 6.7.2.1; an array bound must be positive,
  C11 6.7.6.2; `static_assert` / `_Static_assert` is a declaration of
  the grammar, C11 6.7.10 and C++ [dcl.pre], never an expression);
* the token-level plumbing of the variadic STATIC_ASSERT macros
  (lines 23-28): argument lists as lists of token strings, with
  `#__VA_ARGS__` stringification and adjacent string-literal
  concatenation.
-/

/-- The concrete runtime failure actions the header can expand
`ASSERT_TRAP` and `ASSERT_UNREACHABLE` to: `__builtin_trap()`,
`__debugbreak()`, `unreachable()`, `__builtin_unreachable()`,
`__assume(0)`, and the store through a null int pointer
`((void)(*(volatile? int *)0 = 0))`, volatile-qualified or not. -/
inductive CAction where
  | builtinTrap
  | debugbreak
  | unreachableCall
  | builtinUnreachable
  | assumeFalse
  | nullWrite (volatileQualified : Bool)
  deriving DecidableEq

/-- Which failure actions are a debugger-observable halt: the two trap
intrinsics and the volatile null write (which faults) halt; the
unreachable hints and the non-volatile null write are undefined
behavior the optimizer may remove. -/
def haltsObservably : CAction → Bool
  | .builtinTrap => true
  | .debugbreak => true
  | .nullWrite volatileQualified => volatileQualified
  | _ => false

/-- The macros `src/assert.h` reads, i.e. one build configuration.
The first nine fields are owned by the compiler / language environment
or the surrounding build; the three `Option CAction` fields model a
caller pre-defining `ASSERT_TRAP`, `ASSERT_UNREACHABLE` or
`ASSERT_FAILED` before including the header (`none` = not defined). -/
structure BuildConfig where
  cppStaticAssert : Bool
  staticAssertDefined : Bool
  stdcVersion : Option Nat
  hasCounter : Bool
  gnuc : Bool
  msc : Bool
  unreachableDefined : Bool
  assertDebug : Bool
  debug : Bool
  userTrap : Option CAction
  userUnreachable : Option CAction
  userFailed : Option CAction
  deriving DecidableEq

/-- Whether `__STDC_VERSION__` is defined and at least `v`
(`defined(__STDC_VERSION__) && __STDC_VERSION__ >= v`). -/
def stdcAtLeast (c : BuildConfig) (v : Nat) : Bool :=
  match c.stdcVersion with
  | some w => decide (w ≥ v)
  | none => false

/-- Lines 54-62: `ASSERT_TRAP` is the caller's definition if one exists,
else `__builtin_trap()` under GNU C, `__debugbreak()` under MSVC, and
otherwise the volatile null write. -/
def ASSERT_TRAP (c : BuildConfig) : CAction :=
  match c.userTrap with
  | some a => a
  | none =>
      if c.gnuc then .builtinTrap
      else if c.msc then .debugbreak
      else .nullWrite true

/-- Lines 64-74: `ASSERT_UNREACHABLE` is the caller's definition if one
exists, else `unreachable()` when that macro is defined, else
`__builtin_unreachable()` under GNU C, `__assume(0)` under MSVC, and
otherwise the non-volatile null write. -/
def ASSERT_UNREACHABLE (c : BuildConfig) : CAction :=
  match c.userUnreachable with
  | some a => a
  | none =>
      if c.unreachableDefined then .unreachableCall
      else if c.gnuc then .builtinUnreachable
      else if c.msc then .assumeFalse
      else .nullWrite false

/-- Lines 76-82: `ASSERT_FAILED` is the caller's definition if one
exists, else the trap action when `ASSERT_DEBUG` or `DEBUG` is defined
and the unreachable action otherwise. -/
def ASSERT_FAILED (c : BuildConfig) : CAction :=
  match c.userFailed with
  | some a => a
  | none =>
      if c.assertDebug || c.debug then ASSERT_TRAP c else ASSERT_UNREACHABLE c

/-- Values of the embedded C expression fragment: `void` and `int`. -/
inductive CVal where
  | voidVal
  | intVal (n : Int)
  deriving DecidableEq

/-- C truth of a scalar value: an int is true iff it is non-zero. -/
def truthy : CVal → Bool
  | .intVal n => n != 0
  | .voidVal => false

/-- The C expressions the header's macros expand to: integer literals,
a cast to void, `sizeof` of `int[bound]` applied to a compound literal
(the operand of sizeof is not evaluated), an opaque failure action
used as an expression, and the conditional operator. -/
inductive CExpr where
  | intLit (n : Int)
  | castVoid (e : CExpr)
  | sizeofArrInt (bound : Int)
  | act (a : CAction)
  | condExpr (c t e : CExpr)
  deriving DecidableEq

/-- Size of the modelled `int` in bytes (implementation-defined in C;
only used as the result of `sizeof`, never inspected by a claim). -/
def intSize : Int := 4

/-- Evaluation of an embedded expression: its value together with the
trace of failure actions performed, in order.  `sizeof` does not
evaluate its operand; the conditional operator evaluates its condition
and then exactly one arm. -/
def cEval : CExpr → CVal × List CAction
  | .intLit n => (.intVal n, [])
  | .castVoid e => (.voidVal, (cEval e).2)
  | .sizeofArrInt bound => (.intVal (intSize * bound), [])
  | .act a => (.voidVal, [a])
  | .condExpr c t e =>
      let rc := cEval c
      if truthy rc.1 then
        let rt := cEval t
        (rt.1, rc.2 ++ rt.2)
      else
        let re := cEval e
        (re.1, rc.2 ++ re.2)

/-- Width of the modelled `unsigned` type in bits, bounding legal
bit-field widths. -/
def unsignedBits : Int := 32

/-- The name `ASSERT__CONCAT(static_assertion_, id)` of a synthesized
struct: the fixed stem token pasted with the unique id. -/
structure StructTag where
  stem : String
  uniq : Nat
  deriving DecidableEq

/-- The C declarations the header's macros expand to: a struct holding
a single named bit-field of the given width, and a native
`static_assert(cond, msg)` / `_Static_assert(cond, msg)`. -/
inductive CDecl where
  | structBitfield (tag : StructTag) (fieldName : String) (width : Int)
  | staticAssertDecl (cond : Int) (msg : String)
  deriving DecidableEq

/-- Compile-time legality of a declaration: a named bit-field must have
a positive width not exceeding its type (C11 6.7.2.1: zero width is
allowed only for unnamed members, the width is a non-negative constant
at most the type's width); a static assertion is well-formed iff its
constant condition is non-zero. -/
def declOk : CDecl → Bool
  | .structBitfield _ _ w => decide (0 < w ∧ w ≤ unsignedBits)
  | .staticAssertDecl n _ => decide (n ≠ 0)

/-- Compile-time legality of an expression: an array bound must be a
positive constant (C11 6.7.6.2); everything else is well-formed when
its parts are. -/
def exprOk : CExpr → Bool
  | .intLit _ => true
  | .castVoid e => exprOk e
  | .sizeofArrInt bound => decide (0 < bound)
  | .act _ => true
  | .condExpr c t e => exprOk c && exprOk t && exprOk e

/-- A macro expansion is either a declaration or an expression of the
embedded grammar. -/
inductive CConstruct where
  | decl (d : CDecl)
  | expr (e : CExpr)
  deriving DecidableEq

/-- Compile-time legality of a construct. -/
def constructOk : CConstruct → Bool
  | .decl d => declOk d
  | .expr e => exprOk e

/-- Whether a construct is an expression, i.e. usable in expression
position such as one arm of a conditional operator. -/
def isExprConstruct : CConstruct → Bool
  | .decl _ => false
  | .expr _ => true

/-- The struct tag a construct declares, if any. -/
def declaredTag : CConstruct → Option StructTag
  | .decl (.structBitfield tag _ _) => some tag
  | _ => none

/-- Line 29: `ASSERT(condition)` expands to
`((condition) ? (void)0 : ASSERT_FAILED)`. -/
def ASSERT (c : BuildConfig) (condition : CExpr) : CExpr :=
  .condExpr condition (.castVoid (.intLit 0)) (.act (ASSERT_FAILED c))

/-- The capability tier resolved for the static assertions by the
conditional at lines 31-52. -/
inductive StaticAssertTier where
  | nativeKeyword
  | nativeC11
  | fallback
  deriving DecidableEq

/-- Lines 31-38: the `static_assert` keyword tier when
`__cpp_static_assert` or `static_assert` is defined or C23 is active;
else the `_Static_assert` tier under C11; else the fallback tier. -/
def staticTier (c : BuildConfig) : StaticAssertTier :=
  if c.cppStaticAssert || c.staticAssertDefined || stdcAtLeast c 202311 then
    .nativeKeyword
  else if stdcAtLeast c 201112 then .nativeC11
  else .fallback

/-- C logical negation `!n` on an int: 1 if `n` is zero, else 0. -/
def cnot (n : Int) : Int := if n = 0 then 1 else 0

/-- The bit-field width `(int)!!(condition)` of line 49. -/
def bitfieldWidth (n : Int) : Int := cnot (cnot n)

/-- The array bound `1 - 2*(int)!(condition)` of line 51. -/
def arrayBound (n : Int) : Int := 1 - 2 * cnot n

/-- Lines 39-43: `ASSERT__UNIQUE` is `__COUNTER__` when the compiler
provides it and `__LINE__` otherwise. -/
def ASSERT__UNIQUE (c : BuildConfig) (counter line : Nat) : Nat :=
  if c.hasCounter then counter else line

/-- The value of `__COUNTER__` at its k-th expansion in a translation
unit: the preprocessor counter is monotonic, starting at 0 and
incremented at every use, so the k-th use reads k. -/
def counterValue (k : Nat) : Nat := k

/-- The tag `ASSERT__CONCAT(static_assertion_, id)` built at line 48. -/
def fallbackStructTag (id : Nat) : StructTag :=
  ⟨"static_assertion_", id⟩

/-- Lines 47-49, the fallback `STATIC_ASSERT__IMPL(id, condition, ...)`:
`;struct static_assertion_<id> { unsigned static_assertion_failed: (int)!!(condition); }`. -/
def STATIC_ASSERT__IMPL_fallback (id : Nat) (condition : Int) : CConstruct :=
  .decl (.structBitfield (fallbackStructTag id) "static_assertion_failed"
    (bitfieldWidth condition))

/-- Lines 50-51, the fallback `STATIC_ASSERT_EXPR__IMPL(condition, ...)`:
`((void)sizeof((int[1 - 2*(int)!(condition)]){0}))`. -/
def STATIC_ASSERT_EXPR__IMPL_fallback (condition : Int) : CExpr :=
  .castVoid (.sizeofArrInt (arrayBound condition))

/-- `STATIC_ASSERT_EXPR__IMPL` as resolved by the tier conditional: the
native tiers expand to the `static_assert` / `_Static_assert`
declaration (lines 34 and 37), the fallback tier to the sizeof
expression (lines 50-51). -/
def STATIC_ASSERT_EXPR__IMPL (c : BuildConfig) (condition : Int)
    (msg : String) : CConstruct :=
  match staticTier c with
  | .nativeKeyword => .decl (.staticAssertDecl condition msg)
  | .nativeC11 => .decl (.staticAssertDecl condition msg)
  | .fallback => .expr (STATIC_ASSERT_EXPR__IMPL_fallback condition)

/-- Stringification `#__VA_ARGS__` of an argument list: the arguments
spelled out separated by a comma and a space. -/
def stringifyTokens : List String → String
  | [] => ""
  | [a] => a
  | a :: b :: rest => a ++ ", " ++ stringifyTokens (b :: rest)

/-- Lines 23-24: `STATIC_ASSERT(...)` expands to
`STATIC_ASSERT__IMPL(ASSERT__UNIQUE, __VA_ARGS__, #__VA_ARGS__, _)`,
modelled as the argument list handed to `STATIC_ASSERT__IMPL` (the
first token is whatever `ASSERT__UNIQUE` expanded to). -/
def STATIC_ASSERT_argsOf (uniq : String) (args : List String) : List String :=
  uniq :: (args ++ [stringifyTokens args, "_"])

/-- Lines 25-26: `STATIC_ASSERT_UNIQ(id, ...)` expands to
`STATIC_ASSERT__IMPL(id, __VA_ARGS__, #id ": " #__VA_ARGS__, _)`;
adjacent string literals concatenate. -/
def STATIC_ASSERT_UNIQ_argsOf (id : String) (args : List String) : List String :=
  id :: (args ++ [id ++ ": " ++ stringifyTokens args, "_"])

/-- The `msg` parameter of `STATIC_ASSERT__IMPL(id, cond, msg, ...)`
(lines 33 and 36): the third argument of the call; the native tiers
pass exactly this token to the builtin, and every later argument is
swallowed by `...` and discarded. -/
def implMsgArg (args : List String) : Option String := args[2]?

/-- A baseline environment with nothing defined: an old C compiler with
no native static assertion, no `__COUNTER__`, not GNU C, not MSVC, no
diagnostics flag, and no caller pre-definitions. -/
def plainC89 : BuildConfig :=
  { cppStaticAssert := false, staticAssertDefined := false,
    stdcVersion := none, hasCounter := false, gnuc := false, msc := false,
    unreachableDefined := false, assertDebug := false, debug := false,
    userTrap := none, userUnreachable := none, userFailed := none }

/-- The baseline environment with `ASSERT_DEBUG` defined. -/
def cfgDebug : BuildConfig := { plainC89 with assertDebug := true }

/-- A C++ style environment defining `__cpp_static_assert`. -/
def cfgCpp : BuildConfig := { plainC89 with cppStaticAssert := true }

/-- A C11 environment: `__STDC_VERSION__` is 201112. -/
def cfgC11 : BuildConfig := { plainC89 with stdcVersion := some 201112 }

/-- A diagnostics-disabled environment in which the caller pre-defined
`ASSERT_FAILED` as `__builtin_trap()`. -/
def cfgForceTrap : BuildConfig := { plainC89 with userFailed := some .builtinTrap }

/-- An environment with native support detected (`__cpp_static_assert`)
in which the caller has pre-defined every macro the header leaves to
callers, attempting to influence the tier selection. -/
def cfgOverrideAttempt : BuildConfig :=
  { cfgCpp with
    staticAssertDefined := true
    hasCounter := true
    assertDebug := true
    debug := true
    userTrap := some (.nullWrite true)
    userUnreachable := some (.nullWrite false)
    userFailed := some .builtinTrap }

/-- C1: `ASSERT(condition)` evaluates its condition at execution time;
when the condition is true (non-zero) the whole expression is the void
no-op performing no action, and when it is false the expression is
void and performs exactly the resolved `ASSERT_FAILED` action, in
every build configuration. -/
theorem ASSERT_evaluates_condition (c : BuildConfig) (n : Int) :
    cEval (ASSERT c (.intLit n)) =
      (.voidVal, if n = 0 then [ASSERT_FAILED c] else []) := by
  by_cases h : n = 0 <;> simp [ASSERT, cEval, truthy, h]

/-- C2: with no caller pre-definition of `ASSERT_FAILED`, a single
top-level switch resolves the runtime failure action once per build
configuration: when `ASSERT_DEBUG` or `DEBUG` is defined it is the
halt-with-trap action `ASSERT_TRAP`, and otherwise the unreachable
hint `ASSERT_UNREACHABLE`. -/
theorem ASSERT_FAILED_top_switch (c : BuildConfig) (h : c.userFailed = none) :
    ASSERT_FAILED c =
      if c.assertDebug || c.debug then ASSERT_TRAP c
      else ASSERT_UNREACHABLE c := by
  unfold ASSERT_FAILED
  rw [h]

/-- C2 witness: in the baseline configuration with `ASSERT_DEBUG`
defined, the resolved failure action is the trap action; with the
diagnostics flags clear, it is the unreachable action. -/
theorem ASSERT_FAILED_top_switch_witness :
    ASSERT_FAILED cfgDebug = ASSERT_TRAP cfgDebug ∧
      ASSERT_FAILED plainC89 = ASSERT_UNREACHABLE plainC89 := by
  constructor
  · have h := ASSERT_FAILED_top_switch cfgDebug rfl
    simpa [cfgDebug, plainC89] using h
  · have h := ASSERT_FAILED_top_switch plainC89 rfl
    simpa [plainC89] using h

/-- C3: the fallback declaration-form assertion declares a struct with
a single named bit-field whose width `(int)!!(condition)` evaluates to
1 exactly when the condition holds and to 0 when it does not, and the
declaration is legal exactly when the condition holds: the named
zero-width bit-field is a build error precisely for a false
condition. -/
theorem STATIC_ASSERT_fallback_bitfield (id : Nat) (n : Int) :
    bitfieldWidth n = (if n = 0 then 0 else 1) ∧
      (constructOk (STATIC_ASSERT__IMPL_fallback id n) = true ↔ n ≠ 0) := by
  by_cases h : n = 0 <;>
    simp [bitfieldWidth, cnot, STATIC_ASSERT__IMPL_fallback, constructOk,
      declOk, unsignedBits, h]

/-- C4: the fallback expression-form assertion takes the size of an
array whose bound `1 - 2*(int)!(condition)` is 1 for a true condition
and -1 (an illegal bound, failing the build) for a false one; the
whole construct is an expression, not a declaration, it evaluates to
the void value, and it performs no action. -/
theorem STATIC_ASSERT_EXPR_fallback_array (n : Int) :
    arrayBound n = (if n = 0 then -1 else 1) ∧
      (exprOk (STATIC_ASSERT_EXPR__IMPL_fallback n) = true ↔ n ≠ 0) ∧
      cEval (STATIC_ASSERT_EXPR__IMPL_fallback n) = (.voidVal, []) ∧
      isExprConstruct (.expr (STATIC_ASSERT_EXPR__IMPL_fallback n)) = true := by
  refine ⟨?_, ?_, rfl, rfl⟩ <;>
    by_cases h : n = 0 <;>
      simp [arrayBound, cnot, STATIC_ASSERT_EXPR__IMPL_fallback, exprOk, h]

/-- C5: `ASSERT__UNIQUE` prefers `__COUNTER__` when the toolchain has
it, and the counter is fresh per expansion, so two distinct fallback
expansions synthesize distinct struct names even on the same source
line; without a counter it falls back to `__LINE__`, under which two
expansions on the same line produce the same identifier and thus the
same struct name (a collision). -/
theorem ASSERT__UNIQUE_freshness (c : BuildConfig) (k1 k2 line : Nat) (n : Int) :
    (c.hasCounter = true → k1 ≠ k2 →
      declaredTag (STATIC_ASSERT__IMPL_fallback
          (ASSERT__UNIQUE c (counterValue k1) line) n) ≠
        declaredTag (STATIC_ASSERT__IMPL_fallback
          (ASSERT__UNIQUE c (counterValue k2) line) n)) ∧
    (c.hasCounter = false →
      declaredTag (STATIC_ASSERT__IMPL_fallback
          (ASSERT__UNIQUE c (counterValue k1) line) n) =
        declaredTag (STATIC_ASSERT__IMPL_fallback
          (ASSERT__UNIQUE c (counterValue k2) line) n)) := by
  constructor
  · intro hc hne
    simp [declaredTag, STATIC_ASSERT__IMPL_fallback, fallbackStructTag,
      ASSERT__UNIQUE, counterValue, hc, StructTag.mk.injEq]
    exact hne
  · intro hc
    simp [declaredTag, STATIC_ASSERT__IMPL_fallback, fallbackStructTag,
      ASSERT__UNIQUE, counterValue, hc]

/-- C6: a caller pre-definition of `ASSERT_FAILED`, `ASSERT_TRAP` or
`ASSERT_UNREACHABLE` is used unconditionally, independent of the
diagnostics flags; in particular, forcing `ASSERT_FAILED` to the trap
intrinsic in a diagnostics-disabled configuration makes `ASSERT` on a
false condition perform that trap, an observable halt. -/
theorem ASSERT_FAILED_caller_override (c : BuildConfig) (a : CAction) :
    (c.userFailed = some a → ASSERT_FAILED c = a) ∧
    (c.userTrap = some a → ASSERT_TRAP c = a) ∧
    (c.userUnreachable = some a → ASSERT_UNREACHABLE c = a) ∧
    (c.userFailed = some .builtinTrap → c.assertDebug = false → c.debug = false →
      cEval (ASSERT c (.intLit 0)) = (.voidVal, [.builtinTrap]) ∧
        haltsObservably .builtinTrap = true) := by
  refine ⟨?_, ?_, ?_, ?_⟩
  · intro h; unfold ASSERT_FAILED; rw [h]
  · intro h; unfold ASSERT_TRAP; rw [h]
  · intro h; unfold ASSERT_UNREACHABLE; rw [h]
  · intro h _ _
    refine ⟨?_, rfl⟩
    unfold ASSERT ASSERT_FAILED
    rw [h]
    simp [cEval, truthy]

/-- C7: with no caller pre-definitions and no known trap or
unreachable intrinsic (neither GNU C nor MSVC, `unreachable` not
defined), the trap action is the write through a volatile pointer to
address 0 while the unreachable action is the write through a
non-volatile pointer to address 0: the two last resorts differ exactly
in the volatile qualifier. -/
theorem last_resort_volatility (c : BuildConfig)
    (ht : c.userTrap = none) (hu : c.userUnreachable = none)
    (hg : c.gnuc = false) (hm : c.msc = false)
    (hd : c.unreachableDefined = false) :
    ASSERT_TRAP c = .nullWrite true ∧
      ASSERT_UNREACHABLE c = .nullWrite false ∧
      haltsObservably (.nullWrite true) = true ∧
      haltsObservably (.nullWrite false) = false := by
  refine ⟨?_, ?_, rfl, rfl⟩
  · unfold ASSERT_TRAP; rw [ht]; simp [hg, hm]
  · unfold ASSERT_UNREACHABLE; rw [hu]; simp [hg, hm, hd]

/-- C7 witness: in the baseline environment the two last-resort
actions are the volatile and the non-volatile null write. -/
theorem last_resort_volatility_witness :
    ASSERT_TRAP plainC89 = .nullWrite true ∧
      ASSERT_UNREACHABLE plainC89 = .nullWrite false ∧
      haltsObservably (.nullWrite true) = true ∧
      haltsObservably (.nullWrite false) = false :=
  last_resort_volatility plainC89 rfl rfl rfl rfl rfl

/-- C8: the header documents STATIC_ASSERT_EXPR as a void expression,
but under both native tiers `STATIC_ASSERT_EXPR__IMPL` expands to a
`static_assert` / `_Static_assert` declaration, which is not an
expression and cannot appear in expression position; only the fallback
tier yields a genuine void expression. -/
theorem STATIC_ASSERT_EXPR_native_not_expression :
    staticTier cfgCpp = .nativeKeyword ∧
      isExprConstruct (STATIC_ASSERT_EXPR__IMPL cfgCpp 1 "1 == 1") = false ∧
      staticTier cfgC11 = .nativeC11 ∧
      isExprConstruct (STATIC_ASSERT_EXPR__IMPL cfgC11 1 "1 == 1") = false ∧
      staticTier plainC89 = .fallback ∧
      isExprConstruct (STATIC_ASSERT_EXPR__IMPL plainC89 1 "1 == 1") = true := by
  refine ⟨rfl, ?_, ?_, ?_, ?_, ?_⟩ <;>
    simp [STATIC_ASSERT_EXPR__IMPL, staticTier, stdcAtLeast, isExprConstruct,
      cfgCpp, cfgC11, plainC89]

/-- C9 counterexample: in an environment where native support is
detected via `__cpp_static_assert`, pre-defining every macro the
header leaves to callers still selects the native keyword tier, not
the fallback tier: no caller override forces the fallback. -/
theorem no_fallback_override_at_cfgOverrideAttempt :
    staticTier cfgOverrideAttempt = .nativeKeyword ∧
      StaticAssertTier.nativeKeyword ≠ StaticAssertTier.fallback := by
  exact ⟨rfl, by decide⟩

/-- C9 (amended): no caller override of native-support detection
exists: the tier selection reads only the compiler feature macros
`__cpp_static_assert`, `static_assert` and `__STDC_VERSION__`, so two
configurations agreeing on those three select the same tier, and
whenever native support is detected the fallback tier is never
selected. -/
theorem staticTier_no_fallback_override (c1 c2 : BuildConfig)
    (h1 : c1.cppStaticAssert = c2.cppStaticAssert)
    (h2 : c1.staticAssertDefined = c2.staticAssertDefined)
    (h3 : c1.stdcVersion = c2.stdcVersion) :
    staticTier c1 = staticTier c2 ∧
      ((c1.cppStaticAssert || c1.staticAssertDefined ||
          stdcAtLeast c1 201112) = true →
        staticTier c1 ≠ .fallback) := by
  constructor
  · unfold staticTier stdcAtLeast
    rw [h1, h2, h3]
  · intro hn
    unfold staticTier
    rcases Bool.or_eq_true_iff.mp hn with h | h
    · rcases Bool.or_eq_true_iff.mp h with h | h
      · simp [h]
      · simp [h]
    · by_cases hk : (c1.cppStaticAssert || c1.staticAssertDefined ||
        stdcAtLeast c1 202311) = true
      · simp [hk]
      · simp only [hk, if_false, h, if_true]
        intro hcontra
        exact StaticAssertTier.noConfusion hcontra

/-- C9 witness: the amended theorem applied to the concrete C++ style
environment: the tier is well-defined there and is not the fallback
tier. -/
theorem staticTier_no_fallback_override_witness :
    staticTier cfgCpp = staticTier cfgCpp ∧
      ((cfgCpp.cppStaticAssert || cfgCpp.staticAssertDefined ||
          stdcAtLeast cfgCpp 201112) = true →
        staticTier cfgCpp ≠ .fallback) :=
  staticTier_no_fallback_override cfgCpp cfgCpp rfl rfl rfl

/-- C10: with only a condition, STATIC_ASSERT hands the stringified
condition text to the `msg` parameter of `STATIC_ASSERT__IMPL`, and
STATIC_ASSERT_UNIQ hands the stringified identifier, a colon and a
space, and the stringified arguments; when the caller supplies a
message, that message is the `msg` parameter and the generated default
falls into the trailing `...` and is discarded. -/
theorem STATIC_ASSERT_message_defaulting (u i cond m : String) :
    implMsgArg (STATIC_ASSERT_argsOf u [cond]) = some cond ∧
      implMsgArg (STATIC_ASSERT_argsOf u [cond, m]) = some m ∧
      implMsgArg (STATIC_ASSERT_UNIQ_argsOf i [cond]) = some (i ++ ": " ++ cond) ∧
      implMsgArg (STATIC_ASSERT_UNIQ_argsOf i [cond, m]) = some m := by
  refine ⟨?_, ?_, ?_, ?_⟩ <;>
    simp [implMsgArg, STATIC_ASSERT_argsOf, STATIC_ASSERT_UNIQ_argsOf,
      stringifyTokens]
